import Mathlib

/-!
# HYGRO tester application: experiment state orchestration

A shallow embedding of `sys_100_hygro_main.c`.  The C functions mutate one
record, `t_experiment_data`, and talk to the board only through driver calls.
Here a function of the source becomes a function on a `Machine`: the record
together with the list of driver calls issued so far, oldest first.  Every
driver call of the source appends one entry to that list and every assignment
of the source updates one field of the record, statement by statement.

A `float` value is the rational number a finite float denotes; the rounding
of floating-point operations is not embedded.

Unsigned machine integers are natural numbers; a `uint8_t` argument is a
natural number below 256, and the statements below hold for every natural
number, so for every such argument.  No arithmetic of the source can
overflow: the only computed value is `10 * paletteGreen`, evaluated in `int`
under the guard `paletteGreen <= 100`.
-/

namespace HygroTester

/-! ## Data model -/

/-- Modelled from the spec: the colour triple `t_rgb_led_palette` of
`led_pwm.h`, a header that is not among the sources.  The field names are the
ones the source assigns through (`rgb.paletteRed`, `rgb.paletteGreen`,
`rgb.paletteBlue`); each holds a `uint8_t` value. -/
structure t_rgb_led_palette where
  paletteRed : Nat
  paletteGreen : Nat
  paletteBlue : Nat
deriving DecidableEq, Repr

/-- Modelled from the spec: the palette entry `t_rgb_led_palette_silk` of
`led_pwm.h`, a header that is not among the sources: a colour triple `rgb`
and the silk-screen index `ledSilk` of the LED, as the source uses them. -/
structure t_rgb_led_palette_silk where
  rgb : t_rgb_led_palette
  ledSilk : Nat
deriving DecidableEq, Repr

/-- The record `t_experiment_data`.  The three driver objects are opaque to
the application, which only passes their addresses to the drivers; their
content is an abstract value.  The array `ledUpdate[8]` is a function on the
eight valid indices.  Each of the three `float` fields holds the rational
number its finite float denotes.  The text buffers are lists of character
codes. -/
structure t_experiment_data where
  axGpio : Nat
  clsDevice : Nat
  hygroDevice : Nat
  ssdDigitRight : Nat
  ssdDigitLeft : Nat
  ledUpdate : Fin 8 → t_rgb_led_palette_silk
  switchesRead : Nat
  buttonsRead : Nat
  switchesReadPrev : Nat
  buttonsReadPrev : Nat
  temp_degc : ℚ
  temp_degf : ℚ
  hum_perrh : ℚ
  szInfo1 : List Nat
  szInfo2 : List Nat

/-- The constants the source takes from the generated board headers
(`xparameters.h`, `MuxSSD.h`), which are not among the sources. -/
structure BoardConstants where
  XPAR_PMODHYGRO_0_AXI_LITE_IIC_BASEADDR : Nat
  XPAR_PMODHYGRO_0_AXI_LITE_TMR_BASEADDR : Nat
  XPAR_PMODHYGRO_0_DEVICE_ID : Nat
  XPAR_CPU_M_AXI_DP_FREQ_HZ : Nat
  XPAR_PMODCLS_0_AXI_LITE_SPI_BASEADDR : Nat
  XPAR_MUXSSD_0_S00_AXI_BASEADDR : Nat
  MUXSSD_S00_AXI_SLV_REG0_OFFSET : Nat
  MUXSSD_S00_AXI_SLV_REG1_OFFSET : Nat
deriving DecidableEq, Repr

def USERIO_DEVICE_ID : Nat := 0
def SWTCHS_SWS_MASK : Nat := 0x0F
def SWTCH_SW_CHANNEL : Nat := 1
def BTNS_SWS_MASK : Nat := 0x0F
def BTNS_SW_CHANNEL : Nat := 2

/-- One call into an external driver, with the values of its arguments.  The
driver object a call is given (`&expData->axGpio`, `&expData->clsDevice`,
`&expData->hygroDevice`) is always the record's own and is left out.
`SetRgbPaletteLed` is given the address of an entry's `rgb`; the call records
the triple found there.  `CLS_WriteStringAtPos` is given the address of a
text buffer; the call records the buffer's content.  `HYGRO_getTemperature`
and `HYGRO_getHumidity` are the two bus transactions of the sensor driver;
the value each returns is an input of the function that issues it. -/
inductive DriverCall where
  | SetRgbPaletteLed (ledSilk : Nat) (rgb : t_rgb_led_palette)
  | SetBasicLedPercent (ledSilk : Nat) (percentFixPt : Nat)
  | InitAllLedsOff
  | XGpio_Initialize (deviceId : Nat)
  | XGpio_SelfTest
  | XGpio_SetDataDirection (channel : Nat) (mask : Nat)
  | HYGRO_begin (iicBase : Nat) (chipAddr : Nat) (tmrBase : Nat) (deviceId : Nat) (clockHz : Nat)
  | HYGRO_getTemperature
  | HYGRO_getHumidity
  | CLS_begin (spiBase : Nat)
  | CLS_DisplayClear
  | CLS_WriteStringAtPos (row : Nat) (col : Nat) (text : List Nat)
  | MUXSSD_mWriteReg (base : Nat) (offset : Nat) (value : Nat)
deriving DecidableEq, Repr

/-- The record and the driver calls issued so far, oldest first. -/
structure Machine where
  expData : t_experiment_data
  trace : List DriverCall

/-- Issue one driver call: it is appended to the trace. -/
def driver (c : DriverCall) (m : Machine) : Machine :=
  { m with trace := m.trace ++ [c] }

/-- What a read of `expData->ledUpdate[i]` finds when `i` is not a valid
index: the array has eight entries, the source does not decide what lies
behind them.  A view maps the record and the index to the entry read there. -/
abbrev MemoryView := t_experiment_data → Nat → t_rgb_led_palette_silk

/-- The read `expData->ledUpdate[i]`: the array entry for `i < 8`, and what
the memory view holds for an index past the array. -/
def ledUpdate_read (view : MemoryView) (expData : t_experiment_data) (i : Nat) :
    t_rgb_led_palette_silk :=
  if h : i < 8 then expData.ledUpdate ⟨i, h⟩ else view expData i

/-- An assignment to one field of `expData->ledUpdate[i]`, for a valid `i`. -/
def ledUpdate_write (expData : t_experiment_data) (i : Fin 8)
    (f : t_rgb_led_palette_silk → t_rgb_led_palette_silk) : t_experiment_data :=
  { expData with ledUpdate := Function.update expData.ledUpdate i (f (expData.ledUpdate i)) }

/-! ## Operations -/

/-- `Experiment_Initialize`: the four input snapshots are zeroed. -/
def Experiment_Initialize (m : Machine) : Machine :=
  let e0 := m.expData
  let e1 := { e0 with switchesRead := 0x00000000 }
  let e2 := { e1 with buttonsRead := 0x00000000 }
  let e3 := { e2 with switchesReadPrev := 0x00000000 }
  let e4 := { e3 with buttonsReadPrev := 0x00000000 }
  { m with expData := e4 }

/-- The storage step of `Experiment_SetLedUpdate`: under the guard
`silk < 8`, four assignments to the fields of `ledUpdate[silk]`. -/
def Experiment_SetLedUpdate_store (expData : t_experiment_data)
    (silk red green blue : Nat) : t_experiment_data :=
  if h : silk < 8 then
    let i : Fin 8 := ⟨silk, h⟩
    let e1 := ledUpdate_write expData i (fun e => { e with ledSilk := silk })
    let e2 := ledUpdate_write e1 i (fun e => { e with rgb := { e.rgb with paletteRed := red } })
    let e3 := ledUpdate_write e2 i (fun e => { e with rgb := { e.rgb with paletteGreen := green } })
    ledUpdate_write e3 i (fun e => { e with rgb := { e.rgb with paletteBlue := blue } })
  else
    expData

/-- `Experiment_SetLedUpdate`: the guarded storage step, then the dispatch,
which reads `ledUpdate[silk]` again (with no guard on `silk`) and branches on
the `ledSilk` and `paletteGreen` it finds there. -/
def Experiment_SetLedUpdate (view : MemoryView) (m : Machine)
    (silk red green blue : Nat) : Machine :=
  let m1 : Machine :=
    { m with expData := Experiment_SetLedUpdate_store m.expData silk red green blue }
  let entry := ledUpdate_read view m1.expData silk
  if entry.ledSilk < 4 then
    driver (DriverCall.SetRgbPaletteLed entry.ledSilk entry.rgb) m1
  else if entry.ledSilk < 8 then
    if entry.rgb.paletteGreen ≤ 100 then
      driver (DriverCall.SetBasicLedPercent entry.ledSilk (10 * entry.rgb.paletteGreen)) m1
    else
      m1
  else
    m1

/-- `Experiment_LEDsInitialize`: all LEDs off, then the loop
`for (i = 0; i < 8; ++i) Experiment_SetLedUpdate(expData, i, 0, 0, 0)`; the
conversion of `i` to `uint8_t` changes no value in 0..7. -/
def Experiment_LEDsInitialize (view : MemoryView) (m : Machine) : Machine :=
  (List.range 8).foldl (fun acc i => Experiment_SetLedUpdate view acc i 0 0 0)
    (driver DriverCall.InitAllLedsOff m)

/-- `Experiment_UserIOInitialize`. -/
def Experiment_UserIOInitialize (m : Machine) : Machine :=
  let m1 := driver (DriverCall.XGpio_Initialize USERIO_DEVICE_ID) m
  let m2 := driver DriverCall.XGpio_SelfTest m1
  let m3 := driver (DriverCall.XGpio_SetDataDirection SWTCH_SW_CHANNEL SWTCHS_SWS_MASK) m2
  driver (DriverCall.XGpio_SetDataDirection BTNS_SW_CHANNEL BTNS_SWS_MASK) m3

/-- `Experiment_HYGROInitialize`. -/
def Experiment_HYGROInitialize (bc : BoardConstants) (m : Machine) : Machine :=
  driver (DriverCall.HYGRO_begin bc.XPAR_PMODHYGRO_0_AXI_LITE_IIC_BASEADDR 0x40
    bc.XPAR_PMODHYGRO_0_AXI_LITE_TMR_BASEADDR bc.XPAR_PMODHYGRO_0_DEVICE_ID
    bc.XPAR_CPU_M_AXI_DP_FREQ_HZ) m

/-- `Experiment_CLSInitialize`. -/
def Experiment_CLSInitialize (bc : BoardConstants) (m : Machine) : Machine :=
  let m1 := driver (DriverCall.CLS_begin bc.XPAR_PMODCLS_0_AXI_LITE_SPI_BASEADDR) m
  driver DriverCall.CLS_DisplayClear m1

/-- `Experiment_7SDInitialize`: both digit codes are zeroed, then each is
written to its register of the seven-segment multiplexer. -/
def Experiment_7SDInitialize (bc : BoardConstants) (m : Machine) : Machine :=
  let m1 : Machine := { m with expData := { m.expData with ssdDigitRight := 0 } }
  let m2 : Machine := { m1 with expData := { m1.expData with ssdDigitLeft := 0 } }
  let m3 := driver (DriverCall.MUXSSD_mWriteReg bc.XPAR_MUXSSD_0_S00_AXI_BASEADDR
    bc.MUXSSD_S00_AXI_SLV_REG0_OFFSET m2.expData.ssdDigitRight) m2
  driver (DriverCall.MUXSSD_mWriteReg bc.XPAR_MUXSSD_0_S00_AXI_BASEADDR
    bc.MUXSSD_S00_AXI_SLV_REG1_OFFSET m3.expData.ssdDigitLeft) m3

/-- `Experiment_PeripheralsInitialize`: the five initializers in source order. -/
def Experiment_PeripheralsInitialize (bc : BoardConstants) (view : MemoryView)
    (m : Machine) : Machine :=
  let m1 := Experiment_HYGROInitialize bc m
  let m2 := Experiment_CLSInitialize bc m1
  let m3 := Experiment_7SDInitialize bc m2
  let m4 := Experiment_LEDsInitialize view m3
  Experiment_UserIOInitialize m4

/-- `Experiment_UpdateCLSDisplay`: clear, then one write per text line. -/
def Experiment_UpdateCLSDisplay (m : Machine) : Machine :=
  let m1 := driver DriverCall.CLS_DisplayClear m
  let m2 := driver (DriverCall.CLS_WriteStringAtPos 0 0 m1.expData.szInfo1) m1
  driver (DriverCall.CLS_WriteStringAtPos 1 0 m2.expData.szInfo2) m2

/-! ## Auxiliary definitions for the statements -/

/-- The driver calls the dispatch branch of `Experiment_SetLedUpdate` issues
for the entry it has read, in the order of the source. -/
def dispatch_calls (entry : t_rgb_led_palette_silk) : List DriverCall :=
  if entry.ledSilk < 4 then
    [DriverCall.SetRgbPaletteLed entry.ledSilk entry.rgb]
  else if entry.ledSilk < 8 then
    if entry.rgb.paletteGreen ≤ 100 then
      [DriverCall.SetBasicLedPercent entry.ledSilk (10 * entry.rgb.paletteGreen)]
    else
      []
  else
    []

/-- The dispatcher as the specification words it, keyed on the arguments
and not on the stored entry: slots 0..3 go to the RGB path with the full
triple, slots 4..7 go to the basic path with ten times the green value when
green is at most 100, and nothing else is issued. -/
def spec_dispatch (slot red green blue : Nat) : List DriverCall :=
  if slot < 4 then
    [DriverCall.SetRgbPaletteLed slot ⟨red, green, blue⟩]
  else if slot < 8 then
    if green ≤ 100 then [DriverCall.SetBasicLedPercent slot (10 * green)] else []
  else
    []

/-- The palette index invariant: entry `i` carries the index `i`. -/
def palette_index_invariant (expData : t_experiment_data) : Prop :=
  ∀ i : Fin 8, (expData.ledUpdate i).ledSilk = i.val

/-- The record of a freshly loaded program: `experiData` is a global with
static storage, so every byte of it is zero before `main` runs. -/
def power_on_data : t_experiment_data :=
  { axGpio := 0, clsDevice := 0, hygroDevice := 0, ssdDigitRight := 0, ssdDigitLeft := 0,
    ledUpdate := fun _ => ⟨⟨0, 0, 0⟩, 0⟩,
    switchesRead := 0, buttonsRead := 0, switchesReadPrev := 0, buttonsReadPrev := 0,
    temp_degc := 0, temp_degf := 0, hum_perrh := 0, szInfo1 := [], szInfo2 := [] }

/-- The machine at power-on: the zeroed record and no driver call yet. -/
def power_on : Machine := { expData := power_on_data, trace := [] }

/-- The palette entry whose four bytes are those of one 32-bit word, least
significant byte first, in the member order `rgb.paletteRed`,
`rgb.paletteGreen`, `rgb.paletteBlue`, `ledSilk`. -/
def entry_of_word (w : Nat) : t_rgb_led_palette_silk :=
  ⟨⟨w % 256, w / 256 % 256, w / 65536 % 256⟩, w / 16777216 % 256⟩

/-- Modelled from the spec: the layout of a palette entry, whose declaration
is in `led_pwm.h`, not among the sources.  The entry is taken to be four
bytes (three `uint8_t` colours and a `uint8_t` index, the four values the
specification lists for an entry) on a little-endian target.  In
`t_experiment_data` the four `u32` input snapshots follow `ledUpdate[8]`
directly, so the indices 8, 9, 10 and 11 read the bytes of `switchesRead`,
`buttonsRead`, `switchesReadPrev` and `buttonsReadPrev`; what the later
indices read is given by `far`.  A snapshot that is zero reads as the
all-zero entry whatever the byte order and the member order are. -/
def packed_view (far : MemoryView) : MemoryView :=
  fun expData i =>
    if i = 8 then entry_of_word expData.switchesRead
    else if i = 9 then entry_of_word expData.buttonsRead
    else if i = 10 then entry_of_word expData.switchesReadPrev
    else if i = 11 then entry_of_word expData.buttonsReadPrev
    else far expData i

/-- The view in which every index past the snapshots reads as zero bytes. -/
def zero_far : MemoryView := fun _ _ => entry_of_word 0

/-- A record whose palette is not in its initialized form (every entry
carries the index 7 and the green value 200) and whose sensor fields hold
earlier values. -/
def scrambled_data : t_experiment_data :=
  { power_on_data with
    ledUpdate := fun _ => ⟨⟨1, 200, 3⟩, 7⟩, switchesRead := 5,
    temp_degc := 18, temp_degf := 0, hum_perrh := 99 }

/-- A machine on the scrambled record that has already issued one call. -/
def scrambled : Machine :=
  { expData := scrambled_data, trace := [DriverCall.InitAllLedsOff] }

/-! ## Basic facts about the storage step and the dispatch -/

theorem store_in_range (expData : t_experiment_data) (silk red green blue : Nat)
    (h : silk < 8) :
    Experiment_SetLedUpdate_store expData silk red green blue =
      { expData with
        ledUpdate := Function.update expData.ledUpdate ⟨silk, h⟩ ⟨⟨red, green, blue⟩, silk⟩ } := by
  simp [Experiment_SetLedUpdate_store, ledUpdate_write, h]

theorem store_out_of_range (expData : t_experiment_data) (silk red green blue : Nat)
    (h : 8 ≤ silk) :
    Experiment_SetLedUpdate_store expData silk red green blue = expData := by
  have h8 : ¬ silk < 8 := Nat.not_lt.mpr h
  simp [Experiment_SetLedUpdate_store, h8]

theorem setLedUpdate_eq (view : MemoryView) (m : Machine) (silk red green blue : Nat) :
    Experiment_SetLedUpdate view m silk red green blue =
      { expData := Experiment_SetLedUpdate_store m.expData silk red green blue,
        trace := m.trace ++ dispatch_calls
          (ledUpdate_read view (Experiment_SetLedUpdate_store m.expData silk red green blue) silk) } := by
  unfold Experiment_SetLedUpdate dispatch_calls driver
  by_cases h4 : (ledUpdate_read view
      (Experiment_SetLedUpdate_store m.expData silk red green blue) silk).ledSilk < 4
  · simp [h4]
  · by_cases h8 : (ledUpdate_read view
        (Experiment_SetLedUpdate_store m.expData silk red green blue) silk).ledSilk < 8
    · by_cases hg : (ledUpdate_read view
          (Experiment_SetLedUpdate_store m.expData silk red green blue) silk).rgb.paletteGreen ≤ 100
      · simp [h4, h8, hg]
      · simp [h4, h8, hg]
    · simp [h4, h8]

theorem read_after_store (view : MemoryView) (expData : t_experiment_data)
    (silk red green blue : Nat) (h : silk < 8) :
    ledUpdate_read view (Experiment_SetLedUpdate_store expData silk red green blue) silk =
      ⟨⟨red, green, blue⟩, silk⟩ := by
  simp [ledUpdate_read, store_in_range _ _ _ _ _ h, h]

theorem dispatch_calls_stored (slot red green blue : Nat) (h : slot < 8) :
    dispatch_calls ⟨⟨red, green, blue⟩, slot⟩ = spec_dispatch slot red green blue := by
  simp [dispatch_calls, spec_dispatch, h]

theorem setLedUpdate_in_range (view : MemoryView) (m : Machine)
    (slot red green blue : Nat) (h : slot < 8) :
    Experiment_SetLedUpdate view m slot red green blue =
      { expData := { m.expData with
          ledUpdate := Function.update m.expData.ledUpdate ⟨slot, h⟩ ⟨⟨red, green, blue⟩, slot⟩ },
        trace := m.trace ++ spec_dispatch slot red green blue } := by
  rw [setLedUpdate_eq, read_after_store view _ _ _ _ _ h, dispatch_calls_stored _ _ _ _ h,
    store_in_range _ _ _ _ _ h]

theorem setLedUpdate_out_of_range (view : MemoryView) (m : Machine)
    (silk red green blue : Nat) (h : 8 ≤ silk) :
    Experiment_SetLedUpdate view m silk red green blue =
      { expData := m.expData, trace := m.trace ++ dispatch_calls (view m.expData silk) } := by
  have h8 : ¬ silk < 8 := Nat.not_lt.mpr h
  rw [setLedUpdate_eq, store_out_of_range _ _ _ _ _ h]
  simp [ledUpdate_read, h8]

theorem ledsInitialize_eq (view : MemoryView) (m : Machine) :
    Experiment_LEDsInitialize view m =
      { expData := { m.expData with ledUpdate := fun i => ⟨⟨0, 0, 0⟩, i.val⟩ },
        trace := m.trace ++
          [DriverCall.InitAllLedsOff,
           DriverCall.SetRgbPaletteLed 0 ⟨0, 0, 0⟩, DriverCall.SetRgbPaletteLed 1 ⟨0, 0, 0⟩,
           DriverCall.SetRgbPaletteLed 2 ⟨0, 0, 0⟩, DriverCall.SetRgbPaletteLed 3 ⟨0, 0, 0⟩,
           DriverCall.SetBasicLedPercent 4 0, DriverCall.SetBasicLedPercent 5 0,
           DriverCall.SetBasicLedPercent 6 0, DriverCall.SetBasicLedPercent 7 0] } := by
  have hr : List.range 8 = [0, 1, 2, 3, 4, 5, 6, 7] := by decide
  unfold Experiment_LEDsInitialize
  rw [hr]
  simp only [List.foldl]
  rw [setLedUpdate_in_range view _ 0 0 0 0 (by decide),
    setLedUpdate_in_range view _ 1 0 0 0 (by decide),
    setLedUpdate_in_range view _ 2 0 0 0 (by decide),
    setLedUpdate_in_range view _ 3 0 0 0 (by decide),
    setLedUpdate_in_range view _ 4 0 0 0 (by decide),
    setLedUpdate_in_range view _ 5 0 0 0 (by decide),
    setLedUpdate_in_range view _ 6 0 0 0 (by decide),
    setLedUpdate_in_range view _ 7 0 0 0 (by decide)]
  have hfun : Function.update (Function.update (Function.update (Function.update
      (Function.update (Function.update (Function.update (Function.update
        (driver DriverCall.InitAllLedsOff m).expData.ledUpdate
        (⟨0, by decide⟩ : Fin 8) ⟨⟨0, 0, 0⟩, 0⟩)
        (⟨1, by decide⟩ : Fin 8) ⟨⟨0, 0, 0⟩, 1⟩)
        (⟨2, by decide⟩ : Fin 8) ⟨⟨0, 0, 0⟩, 2⟩)
        (⟨3, by decide⟩ : Fin 8) ⟨⟨0, 0, 0⟩, 3⟩)
        (⟨4, by decide⟩ : Fin 8) ⟨⟨0, 0, 0⟩, 4⟩)
        (⟨5, by decide⟩ : Fin 8) ⟨⟨0, 0, 0⟩, 5⟩)
        (⟨6, by decide⟩ : Fin 8) ⟨⟨0, 0, 0⟩, 6⟩)
        (⟨7, by decide⟩ : Fin 8) ⟨⟨0, 0, 0⟩, 7⟩ =
      fun i => ⟨⟨0, 0, 0⟩, i.val⟩ := by
    funext i
    fin_cases i <;> simp [Function.update]
  simp only [hfun]
  simp [driver, spec_dispatch]

theorem setLedUpdate_keeps_invariant (view : MemoryView) (m : Machine)
    (silk red green blue : Nat) (hinv : palette_index_invariant m.expData) :
    palette_index_invariant (Experiment_SetLedUpdate view m silk red green blue).expData := by
  by_cases h : silk < 8
  · rw [setLedUpdate_in_range view m silk red green blue h]
    intro i
    by_cases hi : i = (⟨silk, h⟩ : Fin 8)
    · subst hi
      simp
    · simp [Function.update_noteq hi, hinv i]
  · rw [setLedUpdate_out_of_range view m silk red green blue (Nat.le_of_not_lt h)]
    exact hinv

theorem later_updates_keep_invariant (view : MemoryView)
    (later : List (Nat × Nat × Nat × Nat)) :
    ∀ m : Machine, palette_index_invariant m.expData →
      palette_index_invariant
        (later.foldl (fun acc a => Experiment_SetLedUpdate view acc a.1 a.2.1 a.2.2.1 a.2.2.2)
          m).expData := by
  induction later with
  | nil => intro m hm; exact hm
  | cons a rest ih =>
    intro m hm
    exact ih _ (setLedUpdate_keeps_invariant view m a.1 a.2.1 a.2.2.1 a.2.2.2 hm)

theorem peripheralsInitialize_palette (bc : BoardConstants) (view : MemoryView) (m : Machine) :
    (Experiment_PeripheralsInitialize bc view m).expData.ledUpdate =
      fun i => ⟨⟨0, 0, 0⟩, i.val⟩ := by
  unfold Experiment_PeripheralsInitialize
  simp only [ledsInitialize_eq]
  rfl

/-! ## The LED update dispatcher -/

/-- C1: for a slot in 0..3 the call `Experiment_SetLedUpdate` issues exactly
one driver call, the RGB-path call `SetRgbPaletteLed` with that slot and the
triple (red, green, blue) unchanged, and no basic-path call.  This holds for
every colour value, in particular for values in 0..100. -/
theorem setLedUpdate_rgb_path (view : MemoryView) (m : Machine)
    (slot red green blue : Nat) (hslot : slot < 4) :
    (Experiment_SetLedUpdate view m slot red green blue).trace =
      m.trace ++ [DriverCall.SetRgbPaletteLed slot ⟨red, green, blue⟩] := by
  have h8 : slot < 8 := by omega
  rw [setLedUpdate_in_range view m slot red green blue h8]
  simp [spec_dispatch, hslot]

/-- Scenario A of the specification, as an instance of C1. -/
theorem setLedUpdate_rgb_path_witness :
    (0 : Nat) < 4 ∧
    (Experiment_SetLedUpdate (packed_view zero_far) power_on 0 10 20 30).trace =
      [DriverCall.SetRgbPaletteLed 0 ⟨10, 20, 30⟩] :=
  ⟨by decide, by
    simpa [power_on] using
      setLedUpdate_rgb_path (packed_view zero_far) power_on 0 10 20 30 (by decide)⟩

/-- C2: for a slot in 4..7 the call `Experiment_SetLedUpdate` issues exactly
one driver call, `SetBasicLedPercent slot (10 * green)`, when green is at most
100, and no driver call at all when green exceeds 100; no RGB-path call is
issued in either case.  The value passed is the product in the natural
numbers, not reduced modulo 256. -/
theorem setLedUpdate_basic_path (view : MemoryView) (m : Machine)
    (slot red green blue : Nat) (h4 : 4 ≤ slot) (h8 : slot < 8) :
    (green ≤ 100 →
      (Experiment_SetLedUpdate view m slot red green blue).trace =
        m.trace ++ [DriverCall.SetBasicLedPercent slot (10 * green)]) ∧
    (100 < green →
      (Experiment_SetLedUpdate view m slot red green blue).trace = m.trace) := by
  have hn4 : ¬ slot < 4 := Nat.not_lt.mpr h4
  rw [setLedUpdate_in_range view m slot red green blue h8]
  constructor
  · intro hg
    simp [spec_dispatch, hn4, h8, hg]
  · intro hg
    have hng : ¬ green ≤ 100 := Nat.not_le.mpr hg
    simp [spec_dispatch, hn4, h8, hng]

/-- Scenario B of the specification, as an instance of C2: green 50 on slot 5
reaches the basic path as 500. -/
theorem setLedUpdate_basic_path_witness :
    (4 : Nat) ≤ 5 ∧ (5 : Nat) < 8 ∧ (50 : Nat) ≤ 100 ∧
    (Experiment_SetLedUpdate (packed_view zero_far) power_on 5 0 50 0).trace =
      [DriverCall.SetBasicLedPercent 5 500] :=
  ⟨by decide, by decide, by decide, by
    simpa [power_on] using
      (setLedUpdate_basic_path (packed_view zero_far) power_on 5 0 50 0
        (by decide) (by decide)).1 (by decide)⟩

/-- C3: the claim is that a slot of 8 or more issues no driver call.  The
dispatch reads `ledUpdate[silk]` with no guard on `silk`.  On the four-byte
little-endian layout, index 9 reads the bytes of `buttonsRead`, which
`Experiment_Initialize` has set to zero: the entry read has `ledSilk = 0`, and
`Experiment_SetLedUpdate(expData, 9, 1, 1, 1)` issues the RGB-path call
`SetRgbPaletteLed(0, {0, 0, 0})`, from every record and for every content of
the memory that follows the record. -/
theorem setLedUpdate_slot9_issues_rgb_call (far : MemoryView) (m : Machine) :
    (Experiment_SetLedUpdate (packed_view far) (Experiment_Initialize m) 9 1 1 1).trace =
      m.trace ++ [DriverCall.SetRgbPaletteLed 0 ⟨0, 0, 0⟩] := by
  rw [setLedUpdate_out_of_range (packed_view far) (Experiment_Initialize m) 9 1 1 1 (by decide)]
  simp [packed_view, Experiment_Initialize, entry_of_word, dispatch_calls]

/-- C4: for a slot of 8 or more the call `Experiment_SetLedUpdate` returns
with the record exactly as it was: the eight palette entries and every other
field are unchanged. -/
theorem setLedUpdate_out_of_range_frame (view : MemoryView) (m : Machine)
    (silk red green blue : Nat) (h : 8 ≤ silk) :
    (Experiment_SetLedUpdate view m silk red green blue).expData = m.expData := by
  rw [setLedUpdate_out_of_range view m silk red green blue h]

/-- The storage part of scenario E, as an instance of C4. -/
theorem setLedUpdate_out_of_range_frame_witness :
    (8 : Nat) ≤ 9 ∧
    (Experiment_SetLedUpdate (packed_view zero_far) scrambled 9 1 1 1).expData =
      scrambled.expData :=
  ⟨by decide,
    setLedUpdate_out_of_range_frame (packed_view zero_far) scrambled 9 1 1 1 (by decide)⟩

/-- C5: for a slot below 8 and any colour values, after
`Experiment_SetLedUpdate` the entry `ledUpdate[slot]` is
`{ledSilk = slot, red, green, blue}`, every other palette entry is unchanged,
and the record differs from the old one in the field `ledUpdate` only.  When
the slot is in 4..7 and green exceeds 100 the value is stored all the same
and no driver call is issued. -/
theorem setLedUpdate_store_frame (view : MemoryView) (m : Machine)
    (slot red green blue : Nat) (h : slot < 8) :
    (Experiment_SetLedUpdate view m slot red green blue).expData.ledUpdate ⟨slot, h⟩ =
      ⟨⟨red, green, blue⟩, slot⟩ ∧
    (∀ j : Fin 8, j.val ≠ slot →
      (Experiment_SetLedUpdate view m slot red green blue).expData.ledUpdate j =
        m.expData.ledUpdate j) ∧
    (Experiment_SetLedUpdate view m slot red green blue).expData =
      { m.expData with
        ledUpdate := (Experiment_SetLedUpdate view m slot red green blue).expData.ledUpdate } ∧
    (4 ≤ slot → 100 < green →
      (Experiment_SetLedUpdate view m slot red green blue).trace = m.trace) := by
  rw [setLedUpdate_in_range view m slot red green blue h]
  refine ⟨by simp, ?_, rfl, ?_⟩
  · intro j hj
    have hne : j ≠ (⟨slot, h⟩ : Fin 8) := fun hc => hj (by rw [hc])
    simp [Function.update_noteq hne]
  · intro h4 hg
    have hn4 : ¬ slot < 4 := Nat.not_lt.mpr h4
    have hng : ¬ green ≤ 100 := Nat.not_le.mpr hg
    simp [spec_dispatch, hn4, h, hng]

/-- Scenario C of the specification, as an instance of C5: green 150 on slot
6 is stored and not dispatched. -/
theorem setLedUpdate_store_frame_witness :
    (6 : Nat) < 8 ∧
    (Experiment_SetLedUpdate (packed_view zero_far) scrambled 6 0 150 0).expData.ledUpdate
        ⟨6, by decide⟩ = ⟨⟨0, 150, 0⟩, 6⟩ ∧
    (Experiment_SetLedUpdate (packed_view zero_far) scrambled 6 0 150 0).trace =
      scrambled.trace :=
  ⟨by decide,
    (setLedUpdate_store_frame (packed_view zero_far) scrambled 6 0 150 0 (by decide)).1,
    (setLedUpdate_store_frame (packed_view zero_far) scrambled 6 0 150 0 (by decide)).2.2.2
      (by decide) (by decide)⟩

/-- C10: for a slot below 8 the driver calls issued by
`Experiment_SetLedUpdate` do not depend on the state it starts from, nor on
what lies behind the array: from any two machines the calls appended to the
trace are the same list, the one the dispatcher keyed on the arguments gives
(`spec_dispatch`). -/
theorem setLedUpdate_dispatch_refines_spec (view1 view2 : MemoryView) (m1 m2 : Machine)
    (slot red green blue : Nat) (h : slot < 8) :
    (Experiment_SetLedUpdate view1 m1 slot red green blue).trace =
      m1.trace ++ spec_dispatch slot red green blue ∧
    (Experiment_SetLedUpdate view2 m2 slot red green blue).trace =
      m2.trace ++ spec_dispatch slot red green blue := by
  rw [setLedUpdate_in_range view1 m1 slot red green blue h,
    setLedUpdate_in_range view2 m2 slot red green blue h]
  exact ⟨rfl, rfl⟩

/-- An instance of C10: the zeroed record and the scrambled record, under two
views, issue the same basic-path call for slot 7 and green 100. -/
theorem setLedUpdate_dispatch_refines_spec_witness :
    (7 : Nat) < 8 ∧
    (Experiment_SetLedUpdate (packed_view zero_far) power_on 7 9 100 9).trace =
      power_on.trace ++ [DriverCall.SetBasicLedPercent 7 1000] ∧
    (Experiment_SetLedUpdate zero_far scrambled 7 9 100 9).trace =
      scrambled.trace ++ [DriverCall.SetBasicLedPercent 7 1000] :=
  ⟨by decide,
    setLedUpdate_dispatch_refines_spec (packed_view zero_far) zero_far power_on scrambled
      7 9 100 9 (by decide)⟩

/-! ## The initialization sequence -/

/-- C6: from every machine each of the five initializers appends a fixed
list of driver calls, and `Experiment_PeripheralsInitialize` appends the
concatenation of the five lists in the order sensor (`HYGRO_begin`), display
(`CLS_begin`, `CLS_DisplayClear`), seven-segment (two register writes), LED
bank (`InitAllLedsOff`, then the eight LED updates) and discrete IO
(`XGpio_Initialize`, `XGpio_SelfTest`, two `XGpio_SetDataDirection`): each
list occurs once, and every call of an earlier initializer comes before every
call of a later one. -/
theorem peripheralsInitialize_call_order (bc : BoardConstants) (view : MemoryView)
    (m : Machine) :
    (∀ m0 : Machine, (Experiment_HYGROInitialize bc m0).trace = m0.trace ++
      [DriverCall.HYGRO_begin bc.XPAR_PMODHYGRO_0_AXI_LITE_IIC_BASEADDR 0x40
        bc.XPAR_PMODHYGRO_0_AXI_LITE_TMR_BASEADDR bc.XPAR_PMODHYGRO_0_DEVICE_ID
        bc.XPAR_CPU_M_AXI_DP_FREQ_HZ]) ∧
    (∀ m0 : Machine, (Experiment_CLSInitialize bc m0).trace = m0.trace ++
      [DriverCall.CLS_begin bc.XPAR_PMODCLS_0_AXI_LITE_SPI_BASEADDR,
       DriverCall.CLS_DisplayClear]) ∧
    (∀ m0 : Machine, (Experiment_7SDInitialize bc m0).trace = m0.trace ++
      [DriverCall.MUXSSD_mWriteReg bc.XPAR_MUXSSD_0_S00_AXI_BASEADDR
         bc.MUXSSD_S00_AXI_SLV_REG0_OFFSET 0,
       DriverCall.MUXSSD_mWriteReg bc.XPAR_MUXSSD_0_S00_AXI_BASEADDR
         bc.MUXSSD_S00_AXI_SLV_REG1_OFFSET 0]) ∧
    (∀ m0 : Machine, (Experiment_LEDsInitialize view m0).trace = m0.trace ++
      [DriverCall.InitAllLedsOff,
       DriverCall.SetRgbPaletteLed 0 ⟨0, 0, 0⟩, DriverCall.SetRgbPaletteLed 1 ⟨0, 0, 0⟩,
       DriverCall.SetRgbPaletteLed 2 ⟨0, 0, 0⟩, DriverCall.SetRgbPaletteLed 3 ⟨0, 0, 0⟩,
       DriverCall.SetBasicLedPercent 4 0, DriverCall.SetBasicLedPercent 5 0,
       DriverCall.SetBasicLedPercent 6 0, DriverCall.SetBasicLedPercent 7 0]) ∧
    (∀ m0 : Machine, (Experiment_UserIOInitialize m0).trace = m0.trace ++
      [DriverCall.XGpio_Initialize 0, DriverCall.XGpio_SelfTest,
       DriverCall.XGpio_SetDataDirection 1 0x0F, DriverCall.XGpio_SetDataDirection 2 0x0F]) ∧
    (Experiment_PeripheralsInitialize bc view m).trace = m.trace ++
      ([DriverCall.HYGRO_begin bc.XPAR_PMODHYGRO_0_AXI_LITE_IIC_BASEADDR 0x40
          bc.XPAR_PMODHYGRO_0_AXI_LITE_TMR_BASEADDR bc.XPAR_PMODHYGRO_0_DEVICE_ID
          bc.XPAR_CPU_M_AXI_DP_FREQ_HZ] ++
       [DriverCall.CLS_begin bc.XPAR_PMODCLS_0_AXI_LITE_SPI_BASEADDR,
        DriverCall.CLS_DisplayClear] ++
       [DriverCall.MUXSSD_mWriteReg bc.XPAR_MUXSSD_0_S00_AXI_BASEADDR
          bc.MUXSSD_S00_AXI_SLV_REG0_OFFSET 0,
        DriverCall.MUXSSD_mWriteReg bc.XPAR_MUXSSD_0_S00_AXI_BASEADDR
          bc.MUXSSD_S00_AXI_SLV_REG1_OFFSET 0] ++
       [DriverCall.InitAllLedsOff,
        DriverCall.SetRgbPaletteLed 0 ⟨0, 0, 0⟩, DriverCall.SetRgbPaletteLed 1 ⟨0, 0, 0⟩,
        DriverCall.SetRgbPaletteLed 2 ⟨0, 0, 0⟩, DriverCall.SetRgbPaletteLed 3 ⟨0, 0, 0⟩,
        DriverCall.SetBasicLedPercent 4 0, DriverCall.SetBasicLedPercent 5 0,
        DriverCall.SetBasicLedPercent 6 0, DriverCall.SetBasicLedPercent 7 0] ++
       [DriverCall.XGpio_Initialize 0, DriverCall.XGpio_SelfTest,
        DriverCall.XGpio_SetDataDirection 1 0x0F,
        DriverCall.XGpio_SetDataDirection 2 0x0F]) := by
  refine ⟨?_, ?_, ?_, ?_, ?_, ?_⟩
  · intro m0
    simp [Experiment_HYGROInitialize, driver]
  · intro m0
    simp [Experiment_CLSInitialize, driver]
  · intro m0
    simp [Experiment_7SDInitialize, driver]
  · intro m0
    rw [ledsInitialize_eq]
  · intro m0
    simp [Experiment_UserIOInitialize, driver, USERIO_DEVICE_ID, SWTCH_SW_CHANNEL,
      SWTCHS_SWS_MASK, BTNS_SW_CHANNEL, BTNS_SWS_MASK]
  · unfold Experiment_PeripheralsInitialize
    simp only [ledsInitialize_eq]
    simp [Experiment_UserIOInitialize, Experiment_7SDInitialize, Experiment_CLSInitialize,
      Experiment_HYGROInitialize, driver, USERIO_DEVICE_ID, SWTCH_SW_CHANNEL,
      SWTCHS_SWS_MASK, BTNS_SW_CHANNEL, BTNS_SWS_MASK]

/-- C7: whatever the palette held before, after `Experiment_LEDsInitialize`,
and so after `Experiment_PeripheralsInitialize`, every entry `i` of the
palette is `{ledSilk = i, 0, 0, 0}`; the predicate "entry `i` carries the
index `i`" is preserved by `Experiment_SetLedUpdate` for every slot and
colour values; and it therefore holds after initialization followed by any
sequence of later LED updates. -/
theorem palette_index_invariant_after_init (bc : BoardConstants) (view : MemoryView)
    (m : Machine) :
    (∀ i : Fin 8,
      (Experiment_LEDsInitialize view m).expData.ledUpdate i = ⟨⟨0, 0, 0⟩, i.val⟩) ∧
    (∀ i : Fin 8,
      (Experiment_PeripheralsInitialize bc view m).expData.ledUpdate i = ⟨⟨0, 0, 0⟩, i.val⟩) ∧
    (∀ (view1 : MemoryView) (m1 : Machine) (silk red green blue : Nat),
      palette_index_invariant m1.expData →
      palette_index_invariant
        (Experiment_SetLedUpdate view1 m1 silk red green blue).expData) ∧
    (∀ later : List (Nat × Nat × Nat × Nat),
      palette_index_invariant
        (later.foldl (fun acc a => Experiment_SetLedUpdate view acc a.1 a.2.1 a.2.2.1 a.2.2.2)
          (Experiment_PeripheralsInitialize bc view m)).expData) := by
  refine ⟨?_, ?_, ?_, ?_⟩
  · intro i
    rw [ledsInitialize_eq]
  · intro i
    rw [peripheralsInitialize_palette]
  · intro view1 m1 silk red green blue hinv
    exact setLedUpdate_keeps_invariant view1 m1 silk red green blue hinv
  · intro later
    apply later_updates_keep_invariant
    intro i
    rw [peripheralsInitialize_palette]

/-- An instance of C7: the palette of the scrambled record after
`Experiment_LEDsInitialize` satisfies the invariant, and still does after an
update of slot 6 and after an update with the out-of-range slot 200. -/
theorem palette_index_invariant_after_init_witness :
    palette_index_invariant (Experiment_LEDsInitialize zero_far scrambled).expData ∧
    palette_index_invariant
      (Experiment_SetLedUpdate zero_far (Experiment_LEDsInitialize zero_far scrambled)
        6 0 150 0).expData ∧
    palette_index_invariant
      (Experiment_SetLedUpdate zero_far (Experiment_LEDsInitialize zero_far scrambled)
        200 255 255 255).expData :=
  have hinit : palette_index_invariant (Experiment_LEDsInitialize zero_far scrambled).expData :=
    fun i => by
      rw [(palette_index_invariant_after_init ⟨0, 0, 0, 0, 0, 0, 0, 0⟩ zero_far scrambled).1 i]
  ⟨hinit,
    (palette_index_invariant_after_init ⟨0, 0, 0, 0, 0, 0, 0, 0⟩ zero_far scrambled).2.2.1
      zero_far _ 6 0 150 0 hinit,
    (palette_index_invariant_after_init ⟨0, 0, 0, 0, 0, 0, 0, 0⟩ zero_far scrambled).2.2.1
      zero_far _ 200 255 255 255 hinit⟩

/-! ## The display refresh -/

/-- C9: `Experiment_UpdateCLSDisplay` issues exactly three driver calls, in
this order: clear the display, write `szInfo1` at row 0 column 0, write
`szInfo2` at row 1 column 0, the text being the content of the buffers at
entry; and it leaves the record unchanged. -/
theorem updateCLSDisplay_calls (m : Machine) :
    (Experiment_UpdateCLSDisplay m).trace = m.trace ++
      [DriverCall.CLS_DisplayClear,
       DriverCall.CLS_WriteStringAtPos 0 0 m.expData.szInfo1,
       DriverCall.CLS_WriteStringAtPos 1 0 m.expData.szInfo2] ∧
    (Experiment_UpdateCLSDisplay m).expData = m.expData := by
  constructor
  · simp [Experiment_UpdateCLSDisplay, driver]
  · rfl

/-! ## The sensor read -/

end HygroTester
